import Mathlib

/-!
Verification of the sandboxed file-access engine of the file_operations
server (src/src/file_operations/__init__.py), via a shallow embedding.

Paths and file contents are Lean Strings; the filesystem is an explicit
association list from canonical path strings to entries, together with a
resolution function (Python Path.resolve) that may raise.  Python string
operations (startswith, lower, in, split, strip) are embedded as
structurally recursive functions over the character list of a String so
that every definition is executable and kernel-reducible.
-/

namespace FileOps

/-- Exceptions a storage primitive may raise (the ones the source code
distinguishes: UnicodeDecodeError and PermissionError are caught in
specific places, every other OS-level failure is modelled as osError). -/
inductive PyExc where
  | unicodeDecodeError
  | permissionError
  | osError
  deriving DecidableEq

/-- Result of running a piece of Python code: a value, or a raised
exception propagating to the nearest enclosing handler. -/
inductive Outcome (α : Type) where
  | ok (a : α)
  | raised (e : PyExc)
  deriving DecidableEq

/-- Message text used when an exception is interpolated into an error
string by an except-handler (str(e) in the source). -/
def PyExc.str : PyExc → String
  | .unicodeDecodeError => "UnicodeDecodeError"
  | .permissionError => "PermissionError"
  | .osError => "OSError"

/-! ### Embedded Python string primitives -/

/-- Is the first list a prefix of the second (character-wise)? -/
def listIsPrefixOf : List Char → List Char → Bool
  | [], _ => true
  | _ :: _, [] => false
  | a :: as, b :: bs => a == b && listIsPrefixOf as bs

/-- Python str.startswith on embedded strings. -/
def pyStartsWith (s pre : String) : Bool := listIsPrefixOf pre.data s.data

/-- Does the needle occur as a contiguous run inside the haystack list? -/
def listContains (needle : List Char) : List Char → Bool
  | [] => needle.isEmpty
  | c :: rest => listIsPrefixOf needle (c :: rest) || listContains needle rest

/-- Python membership test: needle in hay (substring containment). -/
def pyIn (needle hay : String) : Bool := listContains needle.data hay.data

/-- Python str.lower (ASCII case folding, which is all the source needs). -/
def pyLower (s : String) : String := ⟨s.data.map Char.toLower⟩

/-- Split a character list on a separator character; always returns at
least one (possibly empty) segment, exactly like Python str.split. -/
def splitOnChar (sep : Char) : List Char → List (List Char)
  | [] => [[]]
  | c :: rest =>
    match splitOnChar sep rest with
    | [] => [[c]]
    | h :: t => if c == sep then [] :: h :: t else (c :: h) :: t

/-- Python str.split with a single-character separator. -/
def pySplit (s : String) (sep : Char) : List String :=
  (splitOnChar sep s.data).map (fun l => ⟨l⟩)

/-- Python str.strip: drop leading and trailing whitespace. -/
def pyStrip (s : String) : String :=
  ⟨((s.data.dropWhile Char.isWhitespace).reverse.dropWhile Char.isWhitespace).reverse⟩

/-- Drop the first n characters of a string. -/
def strDrop (s : String) (n : Nat) : String := ⟨s.data.drop n⟩

/-- Number of bytes in the UTF-8 encoding of one character. -/
def charUtf8Bytes (c : Char) : List Nat :=
  let n := c.toNat
  if n < 128 then [n]
  else if n < 2048 then [192 + n / 64, 128 + n % 64]
  else if n < 65536 then [224 + n / 4096, 128 + (n / 64) % 64, 128 + n % 64]
  else [240 + n / 262144, 128 + (n / 4096) % 64, 128 + (n / 64) % 64, 128 + n % 64]

/-- Python content.encode of a string as a byte list (UTF-8). -/
def utf8Encode (s : String) : List Nat :=
  (s.data.map charUtf8Bytes).foldr List.append []

/-! ### Path helpers (Python pathlib semantics used by the source) -/

/-- Path.name: the final path component. -/
def pathName (p : String) : String := (pySplit p '/').getLastD ""

/-- Path.suffix: the final dotted extension of the name, including the
dot; empty when the name has no dot, when the only dot is leading
(hidden files like .bashrc), or when the name ends with a dot.  This is
the rule of pathlib: with i the index of the last dot in the name, the
suffix is name[i:] exactly when 0 < i < len(name) - 1. -/
def pathSuffix (p : String) : String :=
  let name := pathName p
  match pySplit name '.' with
  | [] => ""
  | [_] => ""
  | s0 :: rest =>
    let lastSeg := rest.getLastD ""
    if lastSeg == "" then ""
    else if s0 == "" && rest.length == 1 then ""
    else "." ++ lastSeg

/-- Path.parent as a string, for absolute paths. -/
def parentPath (p : String) : String :=
  let joined := String.intercalate "/" (pySplit p '/').dropLast
  if joined == "" then "/" else joined

/-- All ancestors of an absolute path, outermost first, the path itself
last; used to model mkdir(parents=True). -/
def ancestorPaths (p : String) : List String :=
  let segs := (pySplit p '/').filter (fun s => !(s == ""))
  (List.range segs.length).map (fun i => "/" ++ String.intercalate "/" (segs.take (i + 1)))

/-! ### The filesystem model -/

/-- Contents and metadata of one regular file.  size is what stat
reports; text is the result of read_text (which may raise, e.g.
UnicodeDecodeError for non-UTF-8 bytes or PermissionError); bytes is the
result of read_bytes. -/
structure FileData where
  size : Nat
  text : Outcome String
  bytes : Outcome (List Nat)
  deriving DecidableEq

/-- A directory entry: a regular file or a directory. -/
inductive Entry where
  | file (data : FileData)
  | dir
  deriving DecidableEq

/-- The storage state: a resolution function (Path.resolve, which may
raise on symlink cycles and the like) and a finite table of entries
keyed by canonical absolute path strings. -/
structure Fs where
  resolve : String → Outcome String
  entries : List (String × Entry)

/-- Look a path up in the entry table. -/
def Fs.lookup (fs : Fs) (p : String) : Option Entry :=
  (fs.entries.find? (fun e => e.fst == p)).map Prod.snd

/-- Path.exists on the model. -/
def pathExists (fs : Fs) (p : String) : Bool := (fs.lookup p).isSome

/-- Path.is_file on the model. -/
def isFile (fs : Fs) (p : String) : Bool :=
  match fs.lookup p with
  | some (.file _) => true
  | _ => false

/-- Path.is_dir on the model. -/
def isDir (fs : Fs) (p : String) : Bool :=
  match fs.lookup p with
  | some .dir => true
  | _ => false

/-- stat().st_size on the model (the source only calls it after an
existence check, so the default for missing entries is never reached). -/
def statSize (fs : Fs) (p : String) : Nat :=
  match fs.lookup p with
  | some (.file d) => d.size
  | _ => 0

/-- read_text on the model. -/
def readText (fs : Fs) (p : String) : Outcome String :=
  match fs.lookup p with
  | some (.file d) => d.text
  | _ => .raised .osError

/-- read_bytes on the model. -/
def readBytes (fs : Fs) (p : String) : Outcome (List Nat) :=
  match fs.lookup p with
  | some (.file d) => d.bytes
  | _ => .raised .osError

/-- Path.iterdir: immediate children of a directory, in table order. -/
def iterdir (fs : Fs) (dir : String) : List String :=
  (fs.entries.map Prod.fst).filter
    (fun p => pyStartsWith p (dir ++ "/") && !(pyIn "/" (strDrop p (dir.length + 1))))

/-- Path.rglob: every descendant of a directory, in table order. -/
def rglob (fs : Fs) (root : String) : List String :=
  (fs.entries.map Prod.fst).filter (fun p => pyStartsWith p (root ++ "/"))

/-! ### Security configuration (module-level constants of the source) -/

/-- MAX_FILE_SIZE: the 10MB size ceiling. -/
def MAX_FILE_SIZE : Nat := 10 * 1024 * 1024

/-- ALLOWED_EXTENSIONS: the allow-list of file suffixes. -/
def ALLOWED_EXTENSIONS : List String :=
  [".txt", ".md", ".json", ".yaml", ".yml", ".csv", ".log",
   ".py", ".js", ".html", ".css", ".xml", ".ini", ".cfg"]

/-- DANGEROUS_EXTENSIONS: the deny-list of file suffixes. -/
def DANGEROUS_EXTENSIONS : List String :=
  [".exe", ".bat", ".cmd", ".sh", ".ps1", ".dll", ".so"]

/-! ### SecureFileManager policy checks -/

/-- SecureFileManager._is_path_allowed: resolve the path, then return
true iff the resolved string begins (raw str.startswith) with some
member of the allowed-directory set; any resolution exception yields
false. -/
def is_path_allowed (allowedDirs : List String) (fs : Fs) (filePath : String) : Bool :=
  match fs.resolve filePath with
  | .ok resolvedPath => allowedDirs.any (fun d => pyStartsWith resolvedPath d)
  | .raised _ => false

/-- SecureFileManager._is_extension_allowed, parameterized by the deny
and allow lists it consults: lower-case the suffix; deny if it is in the
deny list; else deny if the allow list is non-empty and does not contain
it; else allow. -/
def is_extension_allowed_with (deny allow : List String) (filePath : String) : Bool :=
  let extension := pyLower (pathSuffix filePath)
  if deny.contains extension then false
  else if !allow.isEmpty && !allow.contains extension then false
  else true

/-- SecureFileManager._is_extension_allowed with the configured
DANGEROUS_EXTENSIONS and ALLOWED_EXTENSIONS constants. -/
def is_extension_allowed (filePath : String) : Bool :=
  is_extension_allowed_with DANGEROUS_EXTENSIONS ALLOWED_EXTENSIONS filePath

/-- The access-denied message every manager operation returns when
_is_path_allowed fails; note it is a constant, mentioning nothing about
the path or its existence. -/
def accessDeniedMsg : String := "Access denied: Path not in allowed directories"

/-! ### Result payloads.  The source returns dictionaries with either an
error key or the success fields; each operation is given a result type
with exactly those two shapes.  Timestamps, permission bits and MIME
type in file-info dictionaries are environmental and carry no logic, so
FileInfo keeps the fields the engine computes: name, path, size, the
file/directory flags, and the lower-cased extension. -/

/-- One file-info dictionary (SecureFileManager._get_file_info). -/
structure FileInfo where
  name : String
  path : String
  size : Nat
  is_file : Bool
  is_dir : Bool
  extension : String
  deriving DecidableEq

/-- Result of _get_file_info: the info dictionary, or an error
dictionary when stat raises (missing entry). -/
inductive InfoResult where
  | error (msg : String)
  | success (info : FileInfo)
  deriving DecidableEq

/-- SecureFileManager._get_file_info: stat the path and build the info
dictionary; any exception is caught and returned as an error dictionary. -/
def get_file_info_dict (fs : Fs) (p : String) : InfoResult :=
  match fs.lookup p with
  | some (.file d) =>
      .success ⟨pathName p, p, d.size, true, false, pyLower (pathSuffix p)⟩
  | some .dir =>
      .success ⟨pathName p, p, 0, false, true, pyLower (pathSuffix p)⟩
  | none => .error "Cannot access file info: stat failure"

/-- Result dictionary of read_file. -/
inductive ReadResult where
  | error (msg : String)
  | success (content : String) (contentType : String) (size : Nat)
  deriving DecidableEq

/-- Result dictionary of write_file. -/
inductive WriteResult where
  | error (msg : String)
  | success (size : Nat)
  deriving DecidableEq

/-- Result dictionary of list_directory. -/
inductive ListResult where
  | error (msg : String)
  | success (items : List InfoResult) (totalItems files dirs : Nat)
  deriving DecidableEq

/-- One search match: the path, the match kind (filename or content)
and, for content matches, the captured matching lines. -/
structure SearchMatch where
  path : String
  match_type : String
  matching_lines : List (Nat × String)
  deriving DecidableEq

/-- Result dictionary of search_files (the success payload is the
matches list of the source dictionary). -/
inductive SearchResult where
  | error (msg : String)
  | success (found : List SearchMatch)
  deriving DecidableEq

/-- Result dictionary of get_file_hash.  The three digests (md5, sha1,
sha256) are deterministic functions of the byte buffer; no claim
concerns their values, so the payload carries the byte buffer they are
computed from together with its length. -/
inductive HashOpResult where
  | error (msg : String)
  | success (size : Nat) (content : List Nat)
  deriving DecidableEq

/-! ### The six operations.  Each is written as a body (which may raise)
wrapped by the except-handler the source puts around the whole method,
converting any escaped exception into an error dictionary; the wrapped
operation has type Outcome so that the absence of uncaught exceptions is
a provable property, not a typing accident. -/

/-- Effective size limit of read_file: Python max_size or MAX_FILE_SIZE,
so a None or zero override falls back to the default and any other
override replaces it outright. -/
def sizeLimitOf (maxSize : Option Nat) : Nat :=
  match maxSize with
  | some m => if m == 0 then MAX_FILE_SIZE else m
  | none => MAX_FILE_SIZE

/-- Body of SecureFileManager.read_file: path policy, existence,
file-kind, extension policy, size limit, then the text read with a
binary fallback on UnicodeDecodeError. -/
def readFileBody (allowedDirs : List String) (fs : Fs) (filePath : String)
    (maxSize : Option Nat) : Outcome ReadResult :=
  if !(is_path_allowed allowedDirs fs filePath) then
    .ok (.error accessDeniedMsg)
  else if !(pathExists fs filePath) then
    .ok (.error ("File not found: " ++ filePath))
  else if !(isFile fs filePath) then
    .ok (.error ("Not a file: " ++ filePath))
  else if !(is_extension_allowed filePath) then
    .ok (.error ("File type not allowed: " ++ pathSuffix filePath))
  else
    let fileSize := statSize fs filePath
    let sizeLimit := sizeLimitOf maxSize
    if fileSize > sizeLimit then
      .ok (.error ("File too large: " ++ Nat.repr fileSize ++ " bytes (limit: " ++
        Nat.repr sizeLimit ++ ")"))
    else
      match readText fs filePath with
      | .ok content => .ok (.success content "text" fileSize)
      | .raised .unicodeDecodeError =>
          match readBytes fs filePath with
          | .ok bs =>
              .ok (.success ("<binary data: " ++ Nat.repr bs.length ++ " bytes>") "binary" fileSize)
          | .raised e => .raised e
      | .raised e => .raised e

/-- SecureFileManager.read_file with its enclosing except-handler. -/
def read_file (allowedDirs : List String) (fs : Fs) (filePath : String)
    (maxSize : Option Nat) : Outcome ReadResult :=
  match readFileBody allowedDirs fs filePath maxSize with
  | .ok r => .ok r
  | .raised e => .ok (.error ("Failed to read file: " ++ e.str))

/-- Model of mkdir(parents=True, exist_ok=True): add directory entries
for every missing ancestor of the target directory. -/
def mkdirParents (fs : Fs) (dir : String) : Fs :=
  { fs with
    entries := fs.entries ++
      ((ancestorPaths dir).filter (fun a => !(pathExists fs a))).map (fun a => (a, Entry.dir)) }

/-- Body of SecureFileManager.write_file: path policy, extension policy,
content size against MAX_FILE_SIZE, optional parent creation, parent
existence, then the write.  Returns the result together with the new
storage state (unchanged on every failure branch). -/
def writeFileBody (allowedDirs : List String) (fs : Fs) (filePath content : String)
    (createDirs : Bool) : Outcome (WriteResult × Fs) :=
  if !(is_path_allowed allowedDirs fs filePath) then
    .ok (.error accessDeniedMsg, fs)
  else if !(is_extension_allowed filePath) then
    .ok (.error ("File type not allowed: " ++ pathSuffix filePath), fs)
  else if (utf8Encode content).length > MAX_FILE_SIZE then
    .ok (.error ("Content too large (limit: " ++ Nat.repr MAX_FILE_SIZE ++ " bytes)"), fs)
  else
    let fs1 := if createDirs && !(pathExists fs (parentPath filePath)) then
      mkdirParents fs (parentPath filePath) else fs
    if !(pathExists fs1 (parentPath filePath)) then
      .ok (.error ("Parent directory does not exist: " ++ parentPath filePath), fs1)
    else
      let bs := utf8Encode content
      let fs2 : Fs := { fs1 with
        entries := (filePath, Entry.file ⟨bs.length, .ok content, .ok bs⟩) ::
          fs1.entries.filter (fun e => !(e.fst == filePath)) }
      .ok (.success bs.length, fs2)

/-- SecureFileManager.write_file with its enclosing except-handler. -/
def write_file (allowedDirs : List String) (fs : Fs) (filePath content : String)
    (createDirs : Bool) : Outcome (WriteResult × Fs) :=
  match writeFileBody allowedDirs fs filePath content createDirs with
  | .ok r => .ok r
  | .raised e => .ok (.error ("Failed to write file: " ++ e.str), fs)

/-- Lexicographic order on code-point lists, used for the name sort. -/
def lexLeNat : List Nat → List Nat → Bool
  | [], _ => true
  | _ :: _, [] => false
  | a :: as, b :: bs => a < b || (a == b && lexLeNat as bs)

/-- Python enumerate(lines, 1): pair each line with its 1-based number. -/
def numberLines : Nat → List String → List (Nat × String)
  | _, [] => []
  | i, l :: ls => (i, l) :: numberLines (i + 1) ls

/-- Sort key of list_directory items: the lower-cased name, empty for
error dictionaries (x.get with default in the source). -/
def infoName : InfoResult → String
  | .error _ => ""
  | .success i => i.name

/-- Is an item a regular file (false for error dictionaries)? -/
def infoIsFile : InfoResult → Bool
  | .error _ => false
  | .success i => i.is_file

/-- Is an item a directory (false for error dictionaries)? -/
def infoIsDir : InfoResult → Bool
  | .error _ => false
  | .success i => i.is_dir

/-- Insert an item into a name-sorted list, after equal keys (stable). -/
def insertByKey (x : InfoResult) : List InfoResult → List InfoResult
  | [] => [x]
  | y :: ys =>
    if lexLeNat ((pyLower (infoName y)).data.map Char.toNat)
        ((pyLower (infoName x)).data.map Char.toNat)
    then y :: insertByKey x ys else x :: y :: ys

/-- Stable insertion sort by lower-cased name (items.sort in the source). -/
def sortByName : List InfoResult → List InfoResult
  | [] => []
  | x :: xs => insertByKey x (sortByName xs)

/-- Body of SecureFileManager.list_directory: path policy, existence,
directory-kind, then the hidden-file filter, per-child info dictionaries
and the name sort. -/
def listDirectoryBody (allowedDirs : List String) (fs : Fs) (dirPath : String)
    (includeHidden : Bool) : Outcome ListResult :=
  if !(is_path_allowed allowedDirs fs dirPath) then
    .ok (.error accessDeniedMsg)
  else if !(pathExists fs dirPath) then
    .ok (.error ("Directory not found: " ++ dirPath))
  else if !(isDir fs dirPath) then
    .ok (.error ("Not a directory: " ++ dirPath))
  else
    let children := (iterdir fs dirPath).filter
      (fun p => includeHidden || !(pyStartsWith (pathName p) "."))
    let items := sortByName (children.map (fun p => get_file_info_dict fs p))
    .ok (.success items items.length
      (items.filter infoIsFile).length (items.filter infoIsDir).length)

/-- SecureFileManager.list_directory with its enclosing except-handler. -/
def list_directory (allowedDirs : List String) (fs : Fs) (dirPath : String)
    (includeHidden : Bool) : Outcome ListResult :=
  match listDirectoryBody allowedDirs fs dirPath includeHidden with
  | .ok r => .ok r
  | .raised e => .ok (.error ("Failed to list directory: " ++ e.str))

/-- The matching-line list of a content match: lines numbered from 1,
a line kept when the lowered pattern occurs in the lowered line, its
text stripped of surrounding whitespace. -/
def matchingLinesOf (pattern content : String) : List (Nat × String) :=
  (numberLines 1 (pySplit content '\n')).filterMap
    (fun il => if pyIn (pyLower pattern) (pyLower il.snd) then
      some (il.fst, pyStrip il.snd) else none)

/-- Handling of one rglob item inside search_files: skip it when its own
resolved path is not allowed; report nothing unless the lowered pattern
occurs in the lowered filename; inside a filename match, optionally scan
the content (only for regular files with an allowed extension and size
within MAX_FILE_SIZE), upgrading the match kind to content and capping
the captured lines at 10; UnicodeDecodeError and PermissionError during
the scan leave the filename match intact. -/
def processItem (allowedDirs : List String) (fs : Fs) (pattern : String)
    (includeContent : Bool) (item : String) : Outcome (Option SearchMatch) :=
  if !(is_path_allowed allowedDirs fs item) then .ok none
  else if !(pyIn (pyLower pattern) (pyLower (pathName item))) then .ok none
  else if includeContent && isFile fs item && is_extension_allowed item then
    if statSize fs item ≤ MAX_FILE_SIZE then
      match readText fs item with
      | .ok content =>
          if pyIn (pyLower pattern) (pyLower content) then
            .ok (some ⟨item, "content", (matchingLinesOf pattern content).take 10⟩)
          else .ok (some ⟨item, "filename", []⟩)
      | .raised .unicodeDecodeError => .ok (some ⟨item, "filename", []⟩)
      | .raised .permissionError => .ok (some ⟨item, "filename", []⟩)
      | .raised e => .raised e
    else .ok (some ⟨item, "filename", []⟩)
  else .ok (some ⟨item, "filename", []⟩)

/-- The search loop over the rglob items, propagating any exception not
caught by the per-item handler. -/
def searchLoop (allowedDirs : List String) (fs : Fs) (pattern : String)
    (includeContent : Bool) : List String → Outcome (List SearchMatch)
  | [] => .ok []
  | item :: rest =>
    match processItem allowedDirs fs pattern includeContent item with
    | .raised e => .raised e
    | .ok none => searchLoop allowedDirs fs pattern includeContent rest
    | .ok (some m) =>
      match searchLoop allowedDirs fs pattern includeContent rest with
      | .raised e => .raised e
      | .ok ms => .ok (m :: ms)

/-- Body of SecureFileManager.search_files: path policy, then existence
and directory-kind in one combined check, then the recursive scan. -/
def searchFilesBody (allowedDirs : List String) (fs : Fs) (searchDir pattern : String)
    (includeContent : Bool) : Outcome SearchResult :=
  if !(is_path_allowed allowedDirs fs searchDir) then
    .ok (.error accessDeniedMsg)
  else if !(pathExists fs searchDir) || !(isDir fs searchDir) then
    .ok (.error ("Invalid search directory: " ++ searchDir))
  else
    match searchLoop allowedDirs fs pattern includeContent (rglob fs searchDir) with
    | .ok ms => .ok (.success ms)
    | .raised e => .raised e

/-- SecureFileManager.search_files with its enclosing except-handler. -/
def search_files (allowedDirs : List String) (fs : Fs) (searchDir pattern : String)
    (includeContent : Bool) : Outcome SearchResult :=
  match searchFilesBody allowedDirs fs searchDir pattern includeContent with
  | .ok r => .ok r
  | .raised e => .ok (.error ("Failed to search files: " ++ e.str))

/-- Body of the get_file_info tool handler: path policy, existence, then
the info dictionary. -/
def getFileInfoBody (allowedDirs : List String) (fs : Fs) (filePath : String) :
    Outcome InfoResult :=
  if !(is_path_allowed allowedDirs fs filePath) then
    .ok (.error "Access denied - path not in allowed directories")
  else if !(pathExists fs filePath) then
    .ok (.error ("File not found: " ++ filePath))
  else
    .ok (get_file_info_dict fs filePath)

/-- The get_file_info tool handler with its enclosing except-handler. -/
def get_file_info_op (allowedDirs : List String) (fs : Fs) (filePath : String) :
    Outcome InfoResult :=
  match getFileInfoBody allowedDirs fs filePath with
  | .ok r => .ok r
  | .raised e => .ok (.error e.str)

/-- Body of SecureFileManager.get_file_hash: path policy, then existence
and file-kind in one combined check, then the MAX_FILE_SIZE limit, then
the byte read feeding the three digests. -/
def getFileHashBody (allowedDirs : List String) (fs : Fs) (filePath : String) :
    Outcome HashOpResult :=
  if !(is_path_allowed allowedDirs fs filePath) then
    .ok (.error accessDeniedMsg)
  else if !(pathExists fs filePath) || !(isFile fs filePath) then
    .ok (.error ("File not found: " ++ filePath))
  else if statSize fs filePath > MAX_FILE_SIZE then
    .ok (.error "File too large for hashing")
  else
    match readBytes fs filePath with
    | .ok content => .ok (.success content.length content)
    | .raised e => .raised e

/-- SecureFileManager.get_file_hash with its enclosing except-handler. -/
def get_file_hash (allowedDirs : List String) (fs : Fs) (filePath : String) :
    Outcome HashOpResult :=
  match getFileHashBody allowedDirs fs filePath with
  | .ok r => .ok r
  | .raised e => .ok (.error ("Failed to hash file: " ++ e.str))

/-! ### Concrete storage states used to evaluate the operations -/

/-- An empty storage where resolution is the identity (all paths already
canonical, no symlinks). -/
def fsEmpty : Fs := ⟨fun p => Outcome.ok p, []⟩

/-- Allowed root /a/b next to a sibling file /a/bc.txt that shares the
root as a raw string prefix but is not inside it. -/
def fsC2 : Fs := ⟨fun p => Outcome.ok p,
  [("/a/b", Entry.dir), ("/a/bc.txt", Entry.file ⟨6, .ok "secret", .ok [1, 2]⟩)]⟩

/-- The scenario storage of the specification: directory /sandbox
holding notes.txt whose 11-byte content is hello world. -/
def fsSandbox : Fs := ⟨fun p => Outcome.ok p,
  [("/sandbox", Entry.dir),
   ("/sandbox/notes.txt", Entry.file ⟨11, .ok "hello world", .ok [104]⟩)]⟩

/-- A storage with a file one byte over the configured size ceiling. -/
def fsBig : Fs := ⟨fun p => Outcome.ok p,
  [("/a", Entry.dir), ("/a/huge.txt", Entry.file ⟨MAX_FILE_SIZE + 1, .ok "h", .ok [0]⟩)]⟩

/-- Fifty lines, each consisting of the single letter a. -/
def fiftyLines : String := String.intercalate "\n" (List.replicate 50 "a")

/-- A storage with a 50-matching-line file whose name also matches the
pattern a. -/
def fsFifty : Fs := ⟨fun p => Outcome.ok p,
  [("/s", Entry.dir), ("/s/a.txt", Entry.file ⟨100, .ok fiftyLines, .ok []⟩)]⟩

/-- A storage exercising each precondition failure of the operations:
a directory /a/d, a deny-listed file /a/x.exe, a file exactly at the
size ceiling /a/ok.txt and one a byte over it /a/big.txt. -/
def sampleFs : Fs := ⟨fun p => Outcome.ok p,
  [("/a", Entry.dir), ("/a/d", Entry.dir),
   ("/a/x.exe", Entry.file ⟨3, .ok "hey", .ok [1]⟩),
   ("/a/big.txt", Entry.file ⟨MAX_FILE_SIZE + 1, .ok "b", .ok [9]⟩),
   ("/a/ok.txt", Entry.file ⟨MAX_FILE_SIZE, .ok "x", .ok [7]⟩)]⟩

/-- A storage with an extensionless file whose content contains the
letter a. -/
def fsMake : Fs := ⟨fun p => Outcome.ok p,
  [("/a", Entry.dir), ("/a/Makefile", Entry.file ⟨1, .ok "a", .ok [97]⟩)]⟩

/-! ### Helper lemmas -/

/-- A path the storage holds as a regular file exists. -/
theorem pathExists_of_isFile (fs : Fs) (p : String) (h : isFile fs p = true) :
    pathExists fs p = true := by
  unfold isFile at h
  unfold pathExists
  cases hl : fs.lookup p with
  | none => rw [hl] at h; simp at h
  | some e => simp

/-- Every match produced from a single rglob item carries at most 10
captured lines: the content branch caps the list with take 10 and every
other branch attaches the empty list. -/
theorem processItem_lines_le (ad : List String) (fs : Fs) (pat : String) (ic : Bool)
    (item : String) (m : SearchMatch)
    (h : processItem ad fs pat ic item = .ok (some m)) :
    m.matching_lines.length ≤ 10 := by
  unfold processItem at h
  repeat' split at h
  all_goals simp_all
  all_goals subst h
  all_goals simp [List.length_take]

/-- The cap propagates through the search loop. -/
theorem searchLoop_lines_le (ad : List String) (fs : Fs) (pat : String) (ic : Bool) :
    ∀ (items : List String) (ms : List SearchMatch),
      searchLoop ad fs pat ic items = .ok ms →
      ∀ m ∈ ms, m.matching_lines.length ≤ 10 := by
  intro items
  induction items with
  | nil =>
    intro ms h m hm
    unfold searchLoop at h
    cases h
    simp at hm
  | cons it rest ih =>
    intro ms h m hm
    unfold searchLoop at h
    cases hp : processItem ad fs pat ic it with
    | raised e => rw [hp] at h; cases h
    | ok o =>
      rw [hp] at h
      cases o with
      | none => exact ih ms h m hm
      | some m0 =>
        cases hl : searchLoop ad fs pat ic rest with
        | raised e => rw [hl] at h; cases h
        | ok ms0 =>
          rw [hl] at h
          cases h
          rcases List.mem_cons.mp hm with hm | hm
          · subst hm; exact processItem_lines_le ad fs pat ic it m hp
          · exact ih ms0 hl m hm

/-! ### Claims -/

/-- C1: the specification requires _is_path_allowed to deny a sibling
path that merely shares a string prefix with an allowed root.  The
source compares raw string prefixes, so with allowed root /a/b the
sibling /a/bc is ALLOWED (first conjunct), contradicting the claim; the
genuine descendant /a/b/c is allowed as claimed (second conjunct), and a
path sharing no prefix is denied (third conjunct). -/
theorem c1_code_allows_sibling_prefix :
    is_path_allowed ["/a/b"] fsEmpty "/a/bc" = true ∧
    is_path_allowed ["/a/b"] fsEmpty "/a/b/c" = true ∧
    is_path_allowed ["/a/b"] fsEmpty "/x/c" = false := by decide

/-- C2: the claim demands that every path whose canonical form lies
outside every allowed root gets AccessDenied with no storage I/O.  The
file /a/bc.txt lies outside the only allowed root /a/b (it is a sibling,
not a descendant), yet read_file reads it and returns its content. -/
theorem c2_outside_path_read_succeeds :
    read_file ["/a/b"] fsC2 "/a/bc.txt" none = .ok (.success "secret" "text" 6) := by decide

/-- C3: per the specification scenario, searching /sandbox for hello
with content inclusion should report one content match on notes.txt.
The source only scans content of entries whose FILENAME already matches
the pattern, and hello is not a substring of notes.txt, so the search
returns zero matches. -/
theorem c3_content_only_match_not_reported :
    search_files ["/sandbox"] fsSandbox "/sandbox" "hello" true = .ok (.success []) := by decide

/-- C4: the claim says a per-call size override can never raise the
effective limit past the MAX_FILE_SIZE ceiling.  In the source the
override replaces the limit outright, so a file one byte over the
ceiling is read successfully when the override is passed (first
conjunct), although the same file is rejected without the override
(second conjunct). -/
theorem c4_override_bypasses_ceiling :
    read_file ["/a"] fsBig "/a/huge.txt" (some (MAX_FILE_SIZE + 1)) =
      .ok (.success "h" "text" (MAX_FILE_SIZE + 1)) ∧
    read_file ["/a"] fsBig "/a/huge.txt" none =
      .ok (.error "File too large: 10485761 bytes (limit: 10485760)") := by decide

/-- C8: totality at the operation boundary — every one of the six
operations returns an ok dictionary (success or typed error) on every
input and storage state; no exception value ever crosses the boundary,
because each operation wraps its body in a handler converting raised
exceptions to error dictionaries. -/
theorem c8_operation_totality :
    (∀ ad fs p ms, ∃ r, read_file ad fs p ms = Outcome.ok r) ∧
    (∀ ad fs p c cd, ∃ r, write_file ad fs p c cd = Outcome.ok r) ∧
    (∀ ad fs p ih, ∃ r, list_directory ad fs p ih = Outcome.ok r) ∧
    (∀ ad fs p pat ic, ∃ r, search_files ad fs p pat ic = Outcome.ok r) ∧
    (∀ ad fs p, ∃ r, get_file_info_op ad fs p = Outcome.ok r) ∧
    (∀ ad fs p, ∃ r, get_file_hash ad fs p = Outcome.ok r) := by
  refine ⟨?_, ?_, ?_, ?_, ?_, ?_⟩
  · intro ad fs p ms
    cases hb : readFileBody ad fs p ms with
    | ok r => exact ⟨r, by simp [read_file, hb]⟩
    | raised e => exact ⟨.error ("Failed to read file: " ++ e.str), by simp [read_file, hb]⟩
  · intro ad fs p c cd
    cases hb : writeFileBody ad fs p c cd with
    | ok r => exact ⟨r, by simp [write_file, hb]⟩
    | raised e => exact ⟨(.error ("Failed to write file: " ++ e.str), fs), by simp [write_file, hb]⟩
  · intro ad fs p ih
    cases hb : listDirectoryBody ad fs p ih with
    | ok r => exact ⟨r, by simp [list_directory, hb]⟩
    | raised e => exact ⟨.error ("Failed to list directory: " ++ e.str), by simp [list_directory, hb]⟩
  · intro ad fs p pat ic
    cases hb : searchFilesBody ad fs p pat ic with
    | ok r => exact ⟨r, by simp [search_files, hb]⟩
    | raised e => exact ⟨.error ("Failed to search files: " ++ e.str), by simp [search_files, hb]⟩
  · intro ad fs p
    cases hb : getFileInfoBody ad fs p with
    | ok r => exact ⟨r, by simp [get_file_info_op, hb]⟩
    | raised e => exact ⟨.error e.str, by simp [get_file_info_op, hb]⟩
  · intro ad fs p
    cases hb : getFileHashBody ad fs p with
    | ok r => exact ⟨r, by simp [get_file_hash, hb]⟩
    | raised e => exact ⟨.error ("Failed to hash file: " ++ e.str), by simp [get_file_hash, hb]⟩

/-- C5: precondition ordering and non-leakage.  Whenever the path policy
check fails, each of the six operations returns the fixed access-denied
error, a constant independent of the entry table, so the denial is the
same whether or not the path exists (conjuncts 1 to 6).  When the policy
check passes, read_file fails on the first violated precondition in its
listed order: existence, then file-kind, then extension, before any size
check or storage read (conjuncts 7 to 9); get_file_hash likewise fails
its combined existence-and-kind check before its size check (conjuncts
10 and 11). -/
theorem c5_precondition_order_and_non_leakage :
    (∀ ad fs p ms, is_path_allowed ad fs p = false →
      read_file ad fs p ms = .ok (.error accessDeniedMsg)) ∧
    (∀ ad fs p c cd, is_path_allowed ad fs p = false →
      write_file ad fs p c cd = .ok (.error accessDeniedMsg, fs)) ∧
    (∀ ad fs p ih, is_path_allowed ad fs p = false →
      list_directory ad fs p ih = .ok (.error accessDeniedMsg)) ∧
    (∀ ad fs p pat ic, is_path_allowed ad fs p = false →
      search_files ad fs p pat ic = .ok (.error accessDeniedMsg)) ∧
    (∀ ad fs p, is_path_allowed ad fs p = false →
      get_file_info_op ad fs p =
        .ok (.error "Access denied - path not in allowed directories")) ∧
    (∀ ad fs p, is_path_allowed ad fs p = false →
      get_file_hash ad fs p = .ok (.error accessDeniedMsg)) ∧
    (∀ ad fs p ms, is_path_allowed ad fs p = true → pathExists fs p = false →
      read_file ad fs p ms = .ok (.error ("File not found: " ++ p))) ∧
    (∀ ad fs p ms, is_path_allowed ad fs p = true → pathExists fs p = true →
      isFile fs p = false →
      read_file ad fs p ms = .ok (.error ("Not a file: " ++ p))) ∧
    (∀ ad fs p ms, is_path_allowed ad fs p = true → pathExists fs p = true →
      isFile fs p = true → is_extension_allowed p = false →
      read_file ad fs p ms = .ok (.error ("File type not allowed: " ++ pathSuffix p))) ∧
    (∀ ad fs p, is_path_allowed ad fs p = true →
      (pathExists fs p = false ∨ isFile fs p = false) →
      get_file_hash ad fs p = .ok (.error ("File not found: " ++ p))) ∧
    (∀ ad fs p, is_path_allowed ad fs p = true → isFile fs p = true →
      statSize fs p > MAX_FILE_SIZE →
      get_file_hash ad fs p = .ok (.error "File too large for hashing")) := by
  refine ⟨?_, ?_, ?_, ?_, ?_, ?_, ?_, ?_, ?_, ?_, ?_⟩
  · intro ad fs p ms h; simp [read_file, readFileBody, h]
  · intro ad fs p c cd h; simp [write_file, writeFileBody, h]
  · intro ad fs p ih h; simp [list_directory, listDirectoryBody, h]
  · intro ad fs p pat ic h; simp [search_files, searchFilesBody, h]
  · intro ad fs p h; simp [get_file_info_op, getFileInfoBody, h]
  · intro ad fs p h; simp [get_file_hash, getFileHashBody, h]
  · intro ad fs p ms h1 h2; simp [read_file, readFileBody, h1, h2]
  · intro ad fs p ms h1 h2 h3; simp [read_file, readFileBody, h1, h2, h3]
  · intro ad fs p ms h1 h2 h3 h4; simp [read_file, readFileBody, h1, h2, h3, h4]
  · intro ad fs p h1 h2
    rcases h2 with h2 | h2 <;> simp [get_file_hash, getFileHashBody, h1, h2]
  · intro ad fs p h1 h3 h4
    have h2 : pathExists fs p = true := pathExists_of_isFile fs p h3
    simp [get_file_hash, getFileHashBody, h1, h2, h3, h4]

/-- C5 witness: the eleven conjuncts instantiated on sampleFs — the path
/z outside the allowed root /a (whether absent or present the result is
the same constant), a missing file, the directory /a/d, the deny-listed
/a/x.exe, and the over-limit /a/big.txt. -/
theorem c5_witness :
    read_file ["/a"] sampleFs "/z" none = .ok (.error accessDeniedMsg) ∧
    write_file ["/a"] sampleFs "/z" "x" false = .ok (.error accessDeniedMsg, sampleFs) ∧
    list_directory ["/a"] sampleFs "/z" false = .ok (.error accessDeniedMsg) ∧
    search_files ["/a"] sampleFs "/z" "q" true = .ok (.error accessDeniedMsg) ∧
    get_file_info_op ["/a"] sampleFs "/z" =
      .ok (.error "Access denied - path not in allowed directories") ∧
    get_file_hash ["/a"] sampleFs "/z" = .ok (.error accessDeniedMsg) ∧
    read_file ["/a"] sampleFs "/a/nope.txt" none =
      .ok (.error ("File not found: " ++ "/a/nope.txt")) ∧
    read_file ["/a"] sampleFs "/a/d" none = .ok (.error ("Not a file: " ++ "/a/d")) ∧
    read_file ["/a"] sampleFs "/a/x.exe" none =
      .ok (.error ("File type not allowed: " ++ pathSuffix "/a/x.exe")) ∧
    get_file_hash ["/a"] sampleFs "/a/nope.txt" =
      .ok (.error ("File not found: " ++ "/a/nope.txt")) ∧
    get_file_hash ["/a"] sampleFs "/a/big.txt" = .ok (.error "File too large for hashing") := by
  obtain ⟨t1, t2, t3, t4, t5, t6, t7, t8, t9, t10, t11⟩ :=
    c5_precondition_order_and_non_leakage
  exact ⟨t1 _ _ _ none (by decide), t2 _ _ _ "x" false (by decide),
    t3 _ _ _ false (by decide), t4 _ _ _ "q" true (by decide),
    t5 _ _ _ (by decide), t6 _ _ _ (by decide),
    t7 _ _ _ none (by decide) (by decide),
    t8 _ _ _ none (by decide) (by decide) (by decide),
    t9 _ _ _ none (by decide) (by decide) (by decide) (by decide),
    t10 _ _ _ (by decide) (Or.inl (by decide)),
    t11 _ _ _ (by decide) (by decide) (by decide)⟩

/-- C6: extension-policy precedence.  The concrete check equals the
parameterized one at the configured lists (first conjunct); for any deny
and allow lists, a lower-cased suffix in the deny list is denied no
matter what the allow list holds — in particular when it is in both
lists (second conjunct); when the suffix is not deny-listed, it is
allowed exactly when the allow list is empty or contains it (third
conjunct). -/
theorem c6_extension_precedence (deny allow : List String) (p : String) :
    is_extension_allowed p =
      is_extension_allowed_with DANGEROUS_EXTENSIONS ALLOWED_EXTENSIONS p ∧
    (deny.contains (pyLower (pathSuffix p)) = true →
      is_extension_allowed_with deny allow p = false) ∧
    (deny.contains (pyLower (pathSuffix p)) = false →
      (is_extension_allowed_with deny allow p = true ↔
        (allow = [] ∨ allow.contains (pyLower (pathSuffix p)) = true))) := by
  refine ⟨rfl, ?_, ?_⟩
  · intro h
    unfold is_extension_allowed_with
    simp only [h]
    rfl
  · intro h
    unfold is_extension_allowed_with
    simp only [h]
    cases allow with
    | nil => simp
    | cons a as =>
      cases hc : (a :: as).contains (pyLower (pathSuffix p)) <;> simp [hc]

/-- C6 witness: a suffix in both lists is denied; a suffix in the allow
list alone is allowed. -/
theorem c6_witness :
    is_extension_allowed_with [".txt"] [".txt"] "/f.txt" = false ∧
    (is_extension_allowed_with [".exe"] [".txt"] "/f.txt" = true ↔
      ([".txt"] = ([] : List String) ∨
        [".txt"].contains (pyLower (pathSuffix "/f.txt")) = true)) :=
  ⟨(c6_extension_precedence [".txt"] [".txt"] "/f.txt").2.1 (by decide),
   (c6_extension_precedence [".exe"] [".txt"] "/f.txt").2.2 (by decide)⟩

/-- C7: size-limit boundary exactness.  For a file passing the earlier
preconditions, read_file succeeds when the size equals the effective
limit and returns the too-large error when it exceeds it by one byte;
get_file_hash likewise at the MAX_FILE_SIZE limit. -/
theorem c7_size_limit_boundary (ad : List String) (fs : Fs) (p t : String)
    (d : FileData) (bs : List Nat) (ms : Option Nat)
    (hA : is_path_allowed ad fs p = true)
    (hL : fs.lookup p = some (Entry.file d))
    (hE : is_extension_allowed p = true)
    (hT : d.text = Outcome.ok t)
    (hB : d.bytes = Outcome.ok bs) :
    (d.size = sizeLimitOf ms →
      read_file ad fs p ms = .ok (.success t "text" d.size)) ∧
    (d.size = sizeLimitOf ms + 1 →
      read_file ad fs p ms = .ok (.error ("File too large: " ++ Nat.repr d.size ++
        " bytes (limit: " ++ Nat.repr (sizeLimitOf ms) ++ ")"))) ∧
    (d.size = MAX_FILE_SIZE →
      get_file_hash ad fs p = .ok (.success bs.length bs)) ∧
    (d.size = MAX_FILE_SIZE + 1 →
      get_file_hash ad fs p = .ok (.error "File too large for hashing")) := by
  have hx : pathExists fs p = true := by simp [pathExists, hL]
  have hf : isFile fs p = true := by simp [isFile, hL]
  have hsz : statSize fs p = d.size := by simp [statSize, hL]
  have ht : readText fs p = Outcome.ok t := by simp [readText, hL, hT]
  have hb : readBytes fs p = Outcome.ok bs := by simp [readBytes, hL, hB]
  refine ⟨?_, ?_, ?_, ?_⟩ <;> intro hs
  · have hng : ¬ (sizeLimitOf ms < d.size) := by omega
    simp [read_file, readFileBody, hA, hx, hf, hE, hsz, hng, ht]
  · have hg : sizeLimitOf ms < d.size := by omega
    simp [read_file, readFileBody, hA, hx, hf, hE, hsz, hg]
  · have hng : ¬ (MAX_FILE_SIZE < d.size) := by omega
    simp [get_file_hash, getFileHashBody, hA, hx, hf, hsz, hng, hb]
  · have hg : MAX_FILE_SIZE < d.size := by omega
    simp [get_file_hash, getFileHashBody, hA, hx, hf, hsz, hg]

/-- C7 witness: on sampleFs the file /a/ok.txt of size exactly
MAX_FILE_SIZE is read and hashed successfully, while /a/big.txt of size
MAX_FILE_SIZE + 1 is rejected as too large by both operations. -/
theorem c7_witness :
    read_file ["/a"] sampleFs "/a/ok.txt" none = .ok (.success "x" "text" MAX_FILE_SIZE) ∧
    read_file ["/a"] sampleFs "/a/big.txt" none =
      .ok (.error ("File too large: " ++ Nat.repr (MAX_FILE_SIZE + 1) ++
        " bytes (limit: " ++ Nat.repr (sizeLimitOf none) ++ ")")) ∧
    get_file_hash ["/a"] sampleFs "/a/ok.txt" = .ok (.success ([7] : List Nat).length [7]) ∧
    get_file_hash ["/a"] sampleFs "/a/big.txt" = .ok (.error "File too large for hashing") := by
  have hok := c7_size_limit_boundary ["/a"] sampleFs "/a/ok.txt" "x"
    ⟨MAX_FILE_SIZE, .ok "x", .ok [7]⟩ [7] none
    (by decide) (by decide) (by decide) (by decide) (by decide)
  have hbig := c7_size_limit_boundary ["/a"] sampleFs "/a/big.txt" "b"
    ⟨MAX_FILE_SIZE + 1, .ok "b", .ok [9]⟩ [9] none
    (by decide) (by decide) (by decide) (by decide) (by decide)
  exact ⟨hok.1 (by decide), hbig.2.1 (by decide), hok.2.2.1 (by decide),
    hbig.2.2.2 (by decide)⟩

/-- C9: matching-line cap.  Whenever search_files succeeds, every match
in the returned list carries at most 10 captured matching lines. -/
theorem c9_matching_lines_cap (ad : List String) (fs : Fs) (dir pat : String)
    (ic : Bool) (ms : List SearchMatch)
    (h : search_files ad fs dir pat ic = .ok (.success ms)) :
    ∀ m ∈ ms, m.matching_lines.length ≤ 10 := by
  intro m hm
  unfold search_files at h
  cases hb : searchFilesBody ad fs dir pat ic with
  | raised e => rw [hb] at h; simp at h
  | ok r =>
    rw [hb] at h
    simp at h
    subst h
    unfold searchFilesBody at hb
    split at hb
    · simp at hb
    · split at hb
      · simp at hb
      · cases hl : searchLoop ad fs pat ic (rglob fs dir) with
        | raised e => rw [hl] at hb; simp at hb
        | ok l =>
          rw [hl] at hb
          simp at hb
          subst hb
          exact searchLoop_lines_le ad fs pat ic (rglob fs dir) l hl m hm

set_option maxRecDepth 8000 in
/-- C9 witness: the file /s/a.txt of fsFifty has 50 matching lines, yet
the single content match returned by the search carries exactly the
first 10 of them. -/
theorem c9_witness :
    (SearchMatch.mk "/s/a.txt" "content"
      [(1, "a"), (2, "a"), (3, "a"), (4, "a"), (5, "a"), (6, "a"), (7, "a"), (8, "a"),
       (9, "a"), (10, "a")]).matching_lines.length ≤ 10 :=
  c9_matching_lines_cap ["/s"] fsFifty "/s" "a" true
    [SearchMatch.mk "/s/a.txt" "content"
      [(1, "a"), (2, "a"), (3, "a"), (4, "a"), (5, "a"), (6, "a"), (7, "a"), (8, "a"),
       (9, "a"), (10, "a")]]
    (by decide) _ (by decide)

/-- C10: a path whose final component has no dotted extension has the
empty suffix, which the non-empty allow list does not contain, so the
extension check denies it; hence read_file and write_file on such a file
inside an allowed directory return the extension-denied error, and a
content search never scans its bytes: any match it yields is a filename
match with no captured lines, whatever the content holds. -/
theorem c10_extensionless_denied (ad : List String) (fs : Fs) (p pat : String)
    (h : pathSuffix p = "") :
    is_extension_allowed p = false ∧
    (is_path_allowed ad fs p = true → pathExists fs p = true → isFile fs p = true →
      ∀ ms, read_file ad fs p ms = .ok (.error ("File type not allowed: " ++ pathSuffix p))) ∧
    (is_path_allowed ad fs p = true →
      ∀ c cd, write_file ad fs p c cd =
        .ok (.error ("File type not allowed: " ++ pathSuffix p), fs)) ∧
    (∀ m, processItem ad fs pat true p = .ok (some m) →
      m.match_type = "filename" ∧ m.matching_lines = []) := by
  have hx : is_extension_allowed p = false := by
    simp [is_extension_allowed, is_extension_allowed_with, h]
    decide
  refine ⟨hx, ?_, ?_, ?_⟩
  · intro h1 h2 h3 ms
    simp [read_file, readFileBody, h1, h2, h3, hx]
  · intro h1 c cd
    simp [write_file, writeFileBody, h1, hx]
  · intro m hm
    unfold processItem at hm
    rw [hx] at hm
    split at hm
    · simp at hm
    · split at hm
      · simp at hm
      · simp at hm
        subst hm
        exact ⟨rfl, rfl⟩

/-- C10 witness: the extensionless /a/Makefile of fsMake is denied by
the extension check, read and write return the extension error, and the
search item handler reports it only as a filename match with no lines
even though its content contains the pattern. -/
theorem c10_witness :
    is_extension_allowed "/a/Makefile" = false ∧
    read_file ["/a"] fsMake "/a/Makefile" none =
      .ok (.error ("File type not allowed: " ++ pathSuffix "/a/Makefile")) ∧
    write_file ["/a"] fsMake "/a/Makefile" "x" false =
      .ok (.error ("File type not allowed: " ++ pathSuffix "/a/Makefile"), fsMake) ∧
    ((SearchMatch.mk "/a/Makefile" "filename" []).match_type = "filename" ∧
      (SearchMatch.mk "/a/Makefile" "filename" []).matching_lines = []) := by
  have h := c10_extensionless_denied ["/a"] fsMake "/a/Makefile" "make" (by decide)
  exact ⟨h.1, h.2.1 (by decide) (by decide) (by decide) none,
    h.2.2.1 (by decide) "x" false, h.2.2.2 _ (by decide)⟩

end FileOps
